import Mathlib

/-!
Verification development for the autonomous crypto trading bot
(TradingBot / MarketAnalyzer / DynamicPairSelector / TechnicalAnalysis).

Shallow embedding conventions:
* JavaScript numbers are modelled as exact rationals (ℚ).  All properties
  checked here are threshold / ordering / alignment properties that do not
  depend on rounding of binary floats.
* Asynchronous external calls (exchange, database, notification) are
  modelled by environment records carrying the outcome of each call; the
  state mutated by the orchestrator is an explicit record threaded through
  the functions.
* Log writes (database.addLog) are modelled as an infallible counter bump:
  in the source, addLog catches and swallows its own SQL errors, and its
  initialization preamble can only throw on the very first database call of
  the process, which in every code path studied here happens before the
  regions of interest (the initial getStats call forces initialization).
* Human-readable reason strings are abstracted to tags (inductive types);
  the text of a message is presentation, the tag records which rule fired.
-/

namespace CryptoBot

/-! ## Indicator library — TechnicalAnalysis (src/unnamed/part_008)

Pure functions over a chronological price series (oldest first). -/

/-- TechnicalAnalysis.calculateSMA: sliding-window mean.
JS loop runs i = period-1 .. prices.length-1, window prices[i-period+1 .. i]. -/
def calculateSMA (prices : List ℚ) (period : Nat) : List ℚ :=
  (List.range (prices.length + 1 - period)).map fun j =>
    ((prices.drop j).take period).sum / (period : ℚ)

/-- Recursive tail of calculateEMA: each value is
(price - prevEMA) * multiplier + prevEMA. -/
def emaStep (multiplier : ℚ) : ℚ → List ℚ → List ℚ
  | _, [] => []
  | prev, p :: ps =>
    let e := (p - prev) * multiplier + prev
    e :: emaStep multiplier e ps

/-- TechnicalAnalysis.calculateEMA: seed is the SMA of the first
period prices, multiplier 2/(period+1), then the recursion of emaStep
over the remaining prices. -/
def calculateEMA (prices : List ℚ) (period : Nat) : List ℚ :=
  let multiplier : ℚ := 2 / ((period : ℚ) + 1)
  let sma : ℚ := (prices.take period).sum / (period : ℚ)
  sma :: emaStep multiplier sma (prices.drop period)

/-- The per-step price changes computed at the top of calculateRSI. -/
def rsiChanges (prices : List ℚ) : List ℚ :=
  (List.range (prices.length - 1)).map fun i =>
    prices.getD (i + 1) 0 - prices.getD i 0

/-- Per-step gains: the positive changes, zero otherwise. -/
def rsiGains (prices : List ℚ) : List ℚ :=
  (rsiChanges prices).map fun c => if c > 0 then c else 0

/-- Per-step losses: the absolute negative changes, zero otherwise. -/
def rsiLosses (prices : List ℚ) : List ℚ :=
  (rsiChanges prices).map fun c => if c < 0 then |c| else 0

/-- TechnicalAnalysis.calculateRSI: per-step gains/losses, trailing-window
averages, RS = avgGain/avgLoss, RSI = 100 - 100/(1+RS); 100 when the
window average loss is zero (the source's explicit avgLoss === 0 guard). -/
def calculateRSI (prices : List ℚ) (period : Nat) : List ℚ :=
  let gains := rsiGains prices
  let losses := rsiLosses prices
  (List.range (gains.length + 1 - period)).map fun j =>
    let avgGain := ((gains.drop j).take period).sum / (period : ℚ)
    let avgLoss := ((losses.drop j).take period).sum / (period : ℚ)
    if avgLoss = 0 then 100
    else
      let rs := avgGain / avgLoss
      100 - 100 / (1 + rs)

structure MACDResult where
  macdLine : List ℚ
  signalLine : List ℚ
  histogram : List ℚ
  deriving DecidableEq, Repr

/-- TechnicalAnalysis.calculateMACD: macdLine[i] = emaFast[i] - emaSlow[i]
for i below the minimum of the two lengths (indexed from the head of both
series, exactly as the source loop does); signalLine = EMA(macdLine,
signalPeriod); histogram[i] = macdLine[i + (macdLine.length -
signalLine.length)] - signalLine[i]. -/
def calculateMACD (prices : List ℚ) (fastPeriod slowPeriod signalPeriod : Nat) :
    MACDResult :=
  let emaFast := calculateEMA prices fastPeriod
  let emaSlow := calculateEMA prices slowPeriod
  let minLength := min emaFast.length emaSlow.length
  let macdLine := (List.range minLength).map fun i =>
    emaFast.getD i 0 - emaSlow.getD i 0
  let signalLine := calculateEMA macdLine signalPeriod
  let histogram := (List.range signalLine.length).map fun i =>
    macdLine.getD (i + (macdLine.length - signalLine.length)) 0 - signalLine.getD i 0
  ⟨macdLine, signalLine, histogram⟩

/-- Modelled from the spec: the MACD line as the spec sentence words it,
with the element-wise difference aligned to the shorter (slow) series'
tail: the fast EMA's leading entries are dropped so that both series end
together, macdLineTail[i] = emaFast[i + (lenFast - lenSlow)] - emaSlow[i].
This is the comparison definition for the refinement claim about MACD
alignment; it is compared against calculateMACD above. -/
def macdLineTailAligned (prices : List ℚ) (fastPeriod slowPeriod : Nat) : List ℚ :=
  let emaFast := calculateEMA prices fastPeriod
  let emaSlow := calculateEMA prices slowPeriod
  let minLength := min emaFast.length emaSlow.length
  (List.range minLength).map fun i =>
    emaFast.getD (i + (emaFast.length - emaSlow.length)) 0 - emaSlow.getD i 0

/-! ## Signal engine — MarketAnalyzer.generateSignals (src/lib/market-analyzer.ts) -/

inductive Signal where
  | BUY
  | SELL
  | NEUTRAL
  deriving DecidableEq, Repr

structure MACDIndicator where
  macd : ℚ
  signal : ℚ
  histogram : ℚ
  deriving DecidableEq, Repr

structure TechnicalIndicators where
  rsi : ℚ
  macd : MACDIndicator
  sma20 : ℚ
  sma50 : ℚ
  ema12 : ℚ
  ema26 : ℚ
  deriving DecidableEq, Repr

structure IndicatorFlags where
  useRSI : Bool
  useMACD : Bool
  useSMA : Bool
  deriving DecidableEq, Repr

structure Signals where
  rsi : Signal
  macd : Signal
  sma : Signal
  overall : Signal
  deriving DecidableEq, Repr

/-- RSI per-indicator rule: BUY below 30, SELL above 70, else NEUTRAL
(only when the RSI indicator is active; the source reads the flags through
an optional chain, a missing flags object leaves every signal NEUTRAL). -/
def rsiSignal (flags : Option IndicatorFlags) (rsi : ℚ) : Signal :=
  if (flags.map IndicatorFlags.useRSI).getD false then
    if rsi < 30 then .BUY else if rsi > 70 then .SELL else .NEUTRAL
  else .NEUTRAL

/-- MACD per-indicator rule: BUY when macd > signal and histogram > 0,
SELL when macd < signal and histogram < 0, else NEUTRAL. -/
def macdSignal (flags : Option IndicatorFlags) (m : MACDIndicator) : Signal :=
  if (flags.map IndicatorFlags.useMACD).getD false then
    if m.macd > m.signal ∧ m.histogram > 0 then .BUY
    else if m.macd < m.signal ∧ m.histogram < 0 then .SELL
    else .NEUTRAL
  else .NEUTRAL

/-- SMA trend rule: BUY when price > SMA20 > SMA50, SELL when
price < SMA20 < SMA50, else NEUTRAL. -/
def smaSignal (flags : Option IndicatorFlags) (price sma20 sma50 : ℚ) : Signal :=
  if (flags.map IndicatorFlags.useSMA).getD false then
    if price > sma20 ∧ sma20 > sma50 then .BUY
    else if price < sma20 ∧ sma20 < sma50 then .SELL
    else .NEUTRAL
  else .NEUTRAL

/-- MarketAnalyzer.generateSignals: per-indicator signals followed by the
weighted overall vote.  An RSI signal contributes 3 when the RSI value is
beyond the extreme threshold (below 25 for BUY, above 75 for SELL) and 2
otherwise; MACD and SMA signals contribute 2 each; overall is BUY when
buyScore > sellScore and buyScore >= 3, SELL symmetrically, else NEUTRAL. -/
def generateSignals (price : ℚ) (indicators : TechnicalIndicators)
    (flags : Option IndicatorFlags) : Signals :=
  let sRsi := rsiSignal flags indicators.rsi
  let sMacd := macdSignal flags indicators.macd
  let sSma := smaSignal flags price indicators.sma20 indicators.sma50
  let buyScore : Nat :=
    (if sRsi = .BUY then (if indicators.rsi < 25 then 3 else 2) else 0) +
    (if sMacd = .BUY then 2 else 0) +
    (if sSma = .BUY then 2 else 0)
  let sellScore : Nat :=
    (if sRsi = .SELL then (if indicators.rsi > 75 then 3 else 2) else 0) +
    (if sMacd = .SELL then 2 else 0) +
    (if sSma = .SELL then 2 else 0)
  let overall : Signal :=
    if buyScore > sellScore ∧ buyScore ≥ 3 then .BUY
    else if sellScore > buyScore ∧ sellScore ≥ 3 then .SELL
    else .NEUTRAL
  ⟨sRsi, sMacd, sSma, overall⟩

/-! ## TradingBot configuration and the sell decision
(src/lib/trading-bot.ts, shouldSell) -/

structure RiskManagement where
  maxDailyLoss : ℚ
  maxOpenTrades : Nat
  stopLossPercentage : ℚ
  deriving DecidableEq, Repr

structure BotConfig where
  initialCapital : ℚ
  tradePercentage : ℚ
  buyThreshold : ℚ
  sellThreshold : ℚ
  telegramEnabled : Bool
  riskManagement : RiskManagement
  technicalIndicators : IndicatorFlags
  deriving DecidableEq, Repr

inductive TradeStatus where
  | OPEN
  | CLOSED
  deriving DecidableEq, Repr

inductive TradeType where
  | BUY
  | SELL
  deriving DecidableEq, Repr

structure TradeRec where
  id : Nat
  symbol : String
  type : TradeType
  amount : ℚ
  price : ℚ
  quantity : ℚ
  profit : Option ℚ
  timestamp : ℚ
  status : TradeStatus
  fees : ℚ
  deriving DecidableEq, Repr

/-- The slice of an AnalysisResult that shouldSell reads. -/
structure AnalysisSnapshot where
  signals : Signals
  confidence : ℚ
  technicalIndicators : TechnicalIndicators
  deriving DecidableEq, Repr

/-- Which sell rule fired; tags for the reason strings built in the
source (the stopLoss tag corresponds to the loss-limit message). -/
inductive SellReason where
  | noSell
  | stopLoss
  | profitTarget
  | mediumProfitStrongSignal
  | veryStrongNegativeSignal
  | rsiOverboughtWithProfit
  | stagnantTimeExit
  deriving DecidableEq, Repr

structure SellDecision where
  sell : Bool
  reason : SellReason
  profitPercent : ℚ
  deriving DecidableEq, Repr

/-- Profit percentage of an open trade at the current price:
(currentPrice - trade.price) / trade.price * 100. -/
def profitPercentOf (trade : TradeRec) (currentPrice : ℚ) : ℚ :=
  (currentPrice - trade.price) / trade.price * 100

/-- TradingBot.shouldSell: the six sell rules, evaluated top to bottom,
first match wins.  now is the current epoch-millisecond clock, so
hoursOpen = (now - trade.timestamp) / 3600000.  Note the stop-loss test is
the literal constant -5 in the source; config.riskManagement is not read
here. -/
def shouldSell (config : BotConfig) (trade : TradeRec)
    (analysis : AnalysisSnapshot) (currentPrice : ℚ) (now : ℚ) : SellDecision :=
  let profitPercent := profitPercentOf trade currentPrice
  let hoursOpen := (now - trade.timestamp) / (1000 * 60 * 60)
  if profitPercent ≤ -5 then
    ⟨true, .stopLoss, profitPercent⟩
  else if profitPercent ≥ config.sellThreshold then
    ⟨true, .profitTarget, profitPercent⟩
  else if profitPercent ≥ 2 ∧ analysis.signals.overall = .SELL ∧ analysis.confidence > 70 then
    ⟨true, .mediumProfitStrongSignal, profitPercent⟩
  else if profitPercent ≥ 1/2 ∧ analysis.signals.overall = .SELL ∧ analysis.confidence > 85 then
    ⟨true, .veryStrongNegativeSignal, profitPercent⟩
  else if profitPercent > 1 ∧ analysis.technicalIndicators.rsi > 80 then
    ⟨true, .rsiOverboughtWithProfit, profitPercent⟩
  else if hoursOpen > 24 ∧ profitPercent > -2 ∧ profitPercent < 1 then
    ⟨true, .stagnantTimeExit, profitPercent⟩
  else
    ⟨false, .noSell, profitPercent⟩

/-! ## Execution — TradingBot.executeBuy / executeSell
(src/lib/trading-bot.ts)

The mutable world is the slice of database state these two methods touch:
the trade records, the capital figure, the accumulated profit, the daily
loss, and the log stream (as a counter). -/

structure WorldState where
  trades : List TradeRec
  totalCapital : ℚ
  totalProfit : ℚ
  dailyLoss : ℚ
  logCount : Nat
  deriving DecidableEq, Repr

def addLogW (w : WorldState) : WorldState :=
  { w with logCount := w.logCount + 1 }

structure OrderFill where
  price : ℚ
  commission : ℚ
  deriving DecidableEq, Repr

structure OrderResponse where
  orderId : Nat
  fills : List OrderFill
  deriving DecidableEq, Repr

/-- Outcomes of the exchange calls executeBuy makes, in order:
binance.calculateQuantity then binance.placeOrder. -/
structure BuyEnv where
  calcQuantity : Except Unit ℚ
  placeOrder : Except Unit OrderResponse

/-- Outcome of the single exchange call executeSell makes. -/
structure SellEnv where
  placeOrder : Except Unit OrderResponse

/-- TradingBot.executeBuy: log, compute quantity, place the market order,
then record the OPEN trade, debit capital and log; the telegram alert
swallows its own errors.  Any exchange failure is logged and re-raised by
the catch block. -/
def executeBuy (w : WorldState) (env : BuyEnv) (symbol : String)
    (price tradeAmount : ℚ) (now : ℚ) (newId : Nat) :
    Except Unit Unit × WorldState :=
  let w := addLogW w
  match env.calcQuantity with
  | .error e => (.error e, addLogW w)
  | .ok quantity =>
    match env.placeOrder with
    | .error e => (.error e, addLogW w)
    | .ok order =>
      let trade : TradeRec :=
        { id := newId, symbol := symbol, type := .BUY, amount := tradeAmount,
          price := price, quantity := quantity, profit := none,
          timestamp := now, status := .OPEN,
          fees := ((order.fills.head?).map OrderFill.commission).getD 0 }
      let w := addLogW { w with trades := trade :: w.trades }
      let w := { w with totalCapital := w.totalCapital - tradeAmount }
      let w := addLogW w
      (.ok (), w)

/-- TradingBot.executeSell: log, place the market order, then mark the
trade CLOSED with realized profit (currentPrice - entry) * quantity,
credit capital with amount + profit, add the profit (and the daily-loss
update for a negative profit) and log.  An exchange failure is logged and
re-raised before any record is touched. -/
def executeSell (w : WorldState) (env : SellEnv) (trade : TradeRec)
    (currentPrice : ℚ) (_reason : SellReason) :
    Except Unit Unit × WorldState :=
  let w := addLogW w
  match env.placeOrder with
  | .error e => (.error e, addLogW w)
  | .ok order =>
    let profitAmount := (currentPrice - trade.price) * trade.quantity
    let totalReturn := trade.amount + profitAmount
    let updatedTrade : TradeRec :=
      { trade with
        profit := some profitAmount, status := .CLOSED,
        fees := trade.fees + ((order.fills.head?).map OrderFill.commission).getD 0 }
    let w := addLogW
      { w with trades := w.trades.map fun t =>
          if t.id = trade.id then updatedTrade else t }
    let w := { w with totalCapital := w.totalCapital + totalReturn }
    let w := { w with
      totalProfit := w.totalProfit + profitAmount,
      dailyLoss := if profitAmount < 0 then w.dailyLoss + |profitAmount| else w.dailyLoss }
    let w := addLogW w
    (.ok (), w)

/-! ## Lifecycle — TradingBot.start / stop / forceStop and
MarketAnalyzer.startAnalysis / stopAnalysis

The orchestrator state holds the in-memory running flag, the saved
configuration, whether the 45s trading-loop timer is installed, the
analyzer's state (its running flag and its two timers: the 30s analysis
interval and the 5min pair-update interval), and the database's persisted
run-status flag plus the log counter. -/

structure AnalyzerState where
  isRunning : Bool
  analysisInterval : Bool
  pairUpdateInterval : Bool
  deriving DecidableEq, Repr

structure DbState where
  isRunning : Bool
  logCount : Nat
  deriving DecidableEq, Repr

structure TBState where
  isRunning : Bool
  config : Option BotConfig
  tradingInterval : Bool
  analyzer : AnalyzerState
  db : DbState
  deriving DecidableEq, Repr

def addLogB (s : TBState) : TBState :=
  { s with db := { s.db with logCount := s.db.logCount + 1 } }

/-- MarketAnalyzer.stopAnalysis: clear the running flag and both
intervals, then log. -/
def stopAnalysis (s : TBState) : TBState :=
  addLogB { s with analyzer := ⟨false, false, false⟩ }

/-- MarketAnalyzer.startAnalysis: stop first if already running, set the
running flag, fetch the configuration (throwing when none is stored), log,
run the initial pair update (whose failures are caught internally), then
install the analysis interval and the pair-update interval.  The throw on
a missing configuration happens before either interval is installed. -/
def startAnalysis (s : TBState) (analyzerConfig : Option BotConfig) :
    Except Unit Unit × TBState :=
  let s := if s.analyzer.isRunning then stopAnalysis s else s
  let s := { s with analyzer := { s.analyzer with isRunning := true } }
  match analyzerConfig with
  | none => (.error (), addLogB s)
  | some _ =>
    let s := addLogB s
    let s := addLogB s
    (.ok (), { s with analyzer :=
      { s.analyzer with analysisInterval := true, pairUpdateInterval := true } })

/-- TradingBot.forceStop: clear the in-memory flag and the trading
interval, stop the analyzer (its failure is caught, and in this model the
analyzer stop cannot fail), then update the persisted flag — a failing
status write is caught and leaves the flag as it was. -/
def forceStop (s : TBState) (statusWriteOk : Bool) : TBState :=
  let s := { s with isRunning := false, tradingInterval := false }
  let s := stopAnalysis s
  if statusWriteOk then
    addLogB { s with db := { s.db with isRunning := false } }
  else s

structure StopResult where
  success : Bool
  wasRunning : Bool
  deriving DecidableEq, Repr

/-- Outcomes of the external calls stop makes: whether the initial stats
read succeeds (a failure is caught and treated as a non-running persisted
flag) and whether forceStop's status write succeeds. -/
structure StopEnv where
  getStatsOk : Bool
  statusWriteOk : Bool

/-- TradingBot.stop: read the persisted flag (failure treated as false);
when both the in-memory and the persisted flag say stopped, log and return
success with wasRunning=false; otherwise log, forceStop, run the
best-effort final report (all its failures are swallowed; modelled as the
final log) and return success with wasRunning=true. -/
def stop (s : TBState) (env : StopEnv) : StopResult × TBState :=
  let dbRunning := if env.getStatsOk then s.db.isRunning else false
  if s.isRunning = false ∧ dbRunning = false then
    (⟨true, false⟩, addLogB s)
  else
    let s := addLogB s
    let s := forceStop s env.statusWriteOk
    let s := addLogB s
    (⟨true, true⟩, s)

/-- Iterated stop calls. -/
def iterStop : Nat → TBState → StopEnv → TBState
  | 0, s, _ => s
  | n + 1, s, env => iterStop n (stop s env).2 env

/-- A trading-cycle tick does work only when the 45s timer is installed
and the callback's guard passes: the in-memory running flag is set and a
configuration is present (startTradingLoop's callback returns early
otherwise). -/
def tradingTickFires (s : TBState) : Bool :=
  s.tradingInterval && s.isRunning && s.config.isSome

inductive StartErr where
  | connectivity
  | account
  | funds
  | persistConfig
  | persistStatus
  | analyzerStart
  deriving DecidableEq, Repr

/-- Outcomes of the external calls start makes, in program order:
the connectivity test, the account read (the USDT balance found, none when
the asset is missing), the configuration persist, the run-status persist,
the configuration read inside startAnalysis, and forceStop's status write
(used when start begins with a stale running flag).  The initial stats
read, the log writes and the telegram alert cannot fail (see the header
comment), so they carry no outcome here. -/
structure StartEnv where
  testConn : Except Unit Bool
  usdtFree : Except Unit (Option ℚ)
  updateConfigOk : Bool
  updateStatusOk : Bool
  analyzerConfig : Option BotConfig
  statusWriteOk : Bool

/-- The try-block of TradingBot.start, step by step in source order. -/
def startBody (s : TBState) (cfg : BotConfig) (env : StartEnv) :
    Except StartErr Unit × TBState :=
  let s := addLogB s
  match env.testConn with
  | .error _ => (.error .connectivity, addLogB s)
  | .ok false => (.error .connectivity, addLogB s)
  | .ok true =>
    let s := addLogB s
    match env.usdtFree with
    | .error _ => (.error .account, addLogB s)
    | .ok none => (.error .funds, s)
    | .ok (some free) =>
      if free < 10 then (.error .funds, s)
      else
        let s := { s with config := some cfg, isRunning := true }
        if env.updateConfigOk = false then (.error .persistConfig, s)
        else
          let s := addLogB s
          if env.updateStatusOk = false then (.error .persistStatus, s)
          else
            let s := { s with db := { s.db with isRunning := true } }
            let s := addLogB s
            let s := addLogB s
            match startAnalysis s env.analyzerConfig with
            | (.error _, s2) => (.error .analyzerStart, s2)
            | (.ok _, s2) =>
              let s := addLogB s2
              let s := { s with tradingInterval := true }
              let s := addLogB s
              let s := addLogB s
              (.ok (), s)

/-- TradingBot.start: when either the in-memory or the persisted flag
says running, forceStop first; then run the try-block; on any failure the
catch clears the in-memory flag, logs, and re-raises. -/
def start (s : TBState) (cfg : BotConfig) (env : StartEnv) :
    Except StartErr Unit × TBState :=
  let s := if s.isRunning || s.db.isRunning then forceStop s env.statusWriteOk else s
  match startBody s cfg env with
  | (.ok r, s2) => (.ok r, s2)
  | (.error e, s2) => (.error e, addLogB { s2 with isRunning := false })

/-! ## Instrument selection — DynamicPairSelector
(src/lib/dynamic-pair-selector.ts)

analyzePair is written against a duck-typed ticker (a TypeScript any): the
record below carries exactly the fields it reads.  Note for the reviewer:
the getAllTickers mapping in the bundled exchange client does not populate
quoteAssetVolume, so at runtime that property is undefined; the record
models the value analyzePair's logic consumes.  JavaScript Math.round is
floor(x + 1/2). -/

structure Ticker where
  symbol : String
  price : ℚ
  priceChangePercent : ℚ
  volume : ℚ
  quoteAssetVolume : ℚ
  bidPrice : ℚ
  askPrice : ℚ
  deriving DecidableEq, Repr

/-- The selection-time record built by analyzePair (the reason strings,
which are presentation only, are not modelled). -/
structure PairAnalysis where
  symbol : String
  score : ℤ
  volume : ℚ
  priceChange : ℚ
  volatility : ℚ
  liquidity : ℚ
  technicalScore : ℚ
  deriving DecidableEq, Repr

structure SelectionCriteria where
  minVolume : ℚ
  minLiquidity : ℚ
  maxVolatility : ℚ
  topPairsCount : Nat
  excludeSymbols : List String
  deriving DecidableEq, Repr

/-- The default criteria object built inside selectBestTradingPairs. -/
def defaultCriteria : SelectionCriteria where
  minVolume := 500000
  minLiquidity := 5000
  maxVolatility := 25
  topPairsCount := 8
  excludeSymbols := ["BTCDOMUSDT", "DEFIUSDT", "USDCUSDT", "BUSDUSDT",
    "DAIUSDT", "TUSDUSDT", "USTCUSDT", "USDPUSDT", "FDUSDUSDT"]

/-- JavaScript String.endsWith, over the character list. -/
def jsEndsWith (s t : String) : Bool :=
  t.data.isSuffixOf s.data

/-- JavaScript String.startsWith, over the character list. -/
def jsStartsWith (s t : String) : Bool :=
  t.data.isPrefixOf s.data

/-- Occurrence test for a character pattern inside a character list. -/
def charsInclude (pat : List Char) : List Char → Bool
  | [] => pat.isPrefixOf []
  | c :: rest => pat.isPrefixOf (c :: rest) || charsInclude pat rest

/-- JavaScript String.includes. -/
def jsIncludes (s sub : String) : Bool :=
  charsInclude sub.data s.data

/-- Remove the first occurrence of a character pattern — JavaScript
String.replace with an empty replacement (replace with a string pattern
rewrites only the first occurrence). -/
def removeFirst (pat : List Char) : List Char → List Char
  | [] => []
  | c :: rest =>
    if pat.isPrefixOf (c :: rest) then (c :: rest).drop pat.length
    else c :: removeFirst pat rest

/-- JavaScript String.replace(pat, empty string). -/
def jsReplaceEmpty (s pat : String) : String :=
  ⟨removeFirst pat.data s.data⟩

/-- JavaScript Math.round. -/
def jsRound (q : ℚ) : ℤ :=
  ⌊q + 1 / 2⌋

/-- DynamicPairSelector.performQuickTechnicalAnalysis: RSI bonus, SMA20
bonus and trend-strength bonus over the close series.  When the RSI list
is empty (exactly 14 closes) the source indexes past the end and compares
against undefined, so no RSI bonus is awarded — modelled by getLast?. -/
def performQuickTechnicalAnalysis (closes : List ℚ) (currentPrice : ℚ) : ℚ :=
  let rsiScore : ℚ :=
    if closes.length ≥ 14 then
      match (calculateRSI closes 14).getLast? with
      | some rsi => if rsi < 35 then 15 else if rsi > 65 then 10 else 0
      | none => 0
    else 0
  let smaScore : ℚ :=
    if closes.length ≥ 20 then
      let sma20 := ((closes.drop (closes.length - 20)).sum) / 20
      if currentPrice > sma20 then 10 else 0
    else 0
  let trendScore : ℚ :=
    if closes.length ≥ 10 then
      let recent := closes.drop (closes.length - 10)
      let trend := recent.getLast?.getD 0 - (recent.head?.getD 0)
      if |trend| > currentPrice * (2 / 100) then 8 else 0
    else 0
  rsiScore + smaScore + trendScore

/-- DynamicPairSelector.analyzePair: additive scoring (volume up to 30,
volatility up to 25 peaking at 4 percent, momentum up to 20, the quick
technical pass when at least 20 closes are fetchable, a flat 15 liquidity
bonus for a spread under 0.1 percent, a flat 10 popularity bonus), plus
the spread-based liquidity estimate volume / (spreadPercent + 0.0001).
klines gives the close series fetched for a symbol; none models a fetch
error, which the source catches by skipping the technical pass. -/
def analyzePair (klines : String → Option (List ℚ)) (ticker : Ticker) :
    PairAnalysis :=
  let symbol := ticker.symbol
  let price := ticker.price
  let priceChange := ticker.priceChangePercent
  let volume := ticker.quoteAssetVolume
  let volumeScore : ℚ := min 30 (volume / 10000000 * 30)
  let absChange := |priceChange|
  let volatilityScore : ℚ :=
    if 2 ≤ absChange ∧ absChange ≤ 8 then 25 - |absChange - 4| * 3
    else if absChange > 8 then 10
    else 0
  let momentumScore : ℚ :=
    if |priceChange| > 1 then min 20 (|priceChange| * 2) else 0
  let technical : ℚ :=
    match klines symbol with
    | some closes =>
      if closes.length ≥ 20 then performQuickTechnicalAnalysis closes price
      else 0
    | none => 0
  let spread := ticker.askPrice - ticker.bidPrice
  let spreadPercent := spread / price * 100
  let liquidity := volume / (spreadPercent + 1 / 10000)
  let liquidityScore : ℚ := if spreadPercent < 1 / 10 then 15 else 0
  let baseAsset := jsReplaceEmpty symbol "USDT"
  let popularAssets := ["BTC", "ETH", "BNB", "ADA", "SOL", "DOT", "LINK",
    "AVAX", "MATIC", "ATOM"]
  let popularityBonus : ℚ := if popularAssets.contains baseAsset then 10 else 0
  let score := volumeScore + volatilityScore + momentumScore + technical +
    liquidityScore + popularityBonus
  let technicalScore :=
    (if 2 ≤ absChange ∧ absChange ≤ 8 then 25 - |absChange - 4| * 3 else 0) +
    momentumScore + technical
  { symbol := symbol, score := jsRound score, volume := volume,
    priceChange := priceChange, volatility := absChange,
    liquidity := liquidity, technicalScore := technicalScore }

/-- The usdtPairs pre-filter applied to the raw ticker universe. -/
def tickerPreFilter (criteria : SelectionCriteria) (t : Ticker) : Bool :=
  jsEndsWith t.symbol "USDT" &&
  !(criteria.excludeSymbols.contains t.symbol) &&
  !(jsIncludes t.symbol "UP") &&
  !(jsIncludes t.symbol "DOWN") &&
  !(jsIncludes t.symbol "BULL") &&
  !(jsIncludes t.symbol "BEAR") &&
  !(jsIncludes t.symbol "3L") &&
  !(jsIncludes t.symbol "3S") &&
  !(jsIncludes t.symbol "5L") &&
  !(jsIncludes t.symbol "5S") &&
  !(jsStartsWith t.symbol "AUD") &&
  !(jsStartsWith t.symbol "EUR") &&
  !(jsStartsWith t.symbol "GBP") &&
  (t.symbol.data.length ≤ 12) &&
  decide (t.price > 0) &&
  decide (t.volume > 1000)

/-- The post-scoring hard gate: minimum quote volume, minimum liquidity
estimate, maximum volatility. -/
def passesFilters (criteria : SelectionCriteria) (a : PairAnalysis) : Bool :=
  decide (a.volume ≥ criteria.minVolume) &&
  decide (a.liquidity ≥ criteria.minLiquidity) &&
  decide (a.volatility ≤ criteria.maxVolatility)

/-- External data for one selection pass: the ticker universe (none when
getAllTickers failed all three retries, which the outer catch turns into
an empty result) and the close series per symbol. -/
structure SelectorEnv where
  tickers : Option (List Ticker)
  klines : String → Option (List ℚ)

structure SelectorState where
  lastSelection : List String
  lastUpdate : Nat
  updateInterval : Nat
  deriving DecidableEq, Repr

/-- DynamicPairSelector.selectBestTradingPairs at clock now (epoch ms).
Returns the selected symbols, the new selector state, and whether the
full selection pass ran (false exactly on the cache-hit path).  The cache
is used only when the last update is recent AND the cached list is
non-empty.  The empty-universe early return and the catch-all error
return do not touch the cache; a completed pass overwrites lastSelection
and lastUpdate even when nothing qualified. -/
def selectBestTradingPairs (criteria : SelectionCriteria)
    (st : SelectorState) (now : Nat) (env : SelectorEnv) :
    List String × SelectorState × Bool :=
  if now - st.lastUpdate < st.updateInterval ∧ 0 < st.lastSelection.length then
    (st.lastSelection, st, false)
  else
    match env.tickers with
    | none => ([], st, true)
    | some allTickers =>
      if allTickers.length = 0 then ([], st, true)
      else
        let usdtPairs := allTickers.filter (tickerPreFilter criteria)
        let pairAnalyses :=
          (usdtPairs.map (analyzePair env.klines)).filter (passesFilters criteria)
        let sorted := pairAnalyses.mergeSort fun a b => decide (b.score ≤ a.score)
        let topPairs := sorted.take criteria.topPairsCount
        let selectedSymbols := topPairs.map PairAnalysis.symbol
        (selectedSymbols,
          { st with lastSelection := selectedSymbols, lastUpdate := now }, true)

/-! ## Sample data for concrete evaluations -/

def sampleRisk : RiskManagement :=
  ⟨10, 3, 3⟩

def sampleConfig : BotConfig :=
  ⟨1000, 10, 2, 3, false, sampleRisk, ⟨true, true, true⟩⟩

def neutralSignals : Signals :=
  ⟨.NEUTRAL, .NEUTRAL, .NEUTRAL, .NEUTRAL⟩

def sampleIndicators : TechnicalIndicators :=
  ⟨50, ⟨0, 0, 0⟩, 100, 100, 100, 100⟩

def sampleAnalysis : AnalysisSnapshot :=
  ⟨neutralSignals, 0, sampleIndicators⟩

def sampleTrade : TradeRec :=
  ⟨1, "BTCUSDT", .BUY, 50, 100, 1 / 2, none, 0, .OPEN, 0⟩

/-! ## Claims about the sell decision -/

/-- C3, counterexample: the stop-loss percent is configured at 3 via the
risk-management configuration and the open trade sits at a 4 percent
loss, so the loss has reached the configured percent; yet shouldSell
returns no sell decision at all, because the source compares against the
literal -5 and never reads riskManagement.stopLossPercentage. -/
theorem shouldSell_ignores_configured_stopLoss :
    profitPercentOf sampleTrade 96 = -4 ∧
    profitPercentOf sampleTrade 96 ≤ -sampleConfig.riskManagement.stopLossPercentage ∧
    (shouldSell sampleConfig sampleTrade sampleAnalysis 96 0).sell = false := by
  refine ⟨?_, ?_, ?_⟩ <;>
    norm_num [shouldSell, profitPercentOf, sampleTrade, sampleConfig,
      sampleRisk, sampleAnalysis, sampleIndicators, neutralSignals]

/-- C3 (amended): the hard stop-loss rule is evaluated first with the
fixed -5 percent threshold: whenever the trade's loss has reached 5
percent, shouldSell returns a sell decision whose reason is the loss
limit, regardless of the configuration, the overall signal, the
confidence, the RSI and the holding duration, and no lower-priority
rule's reason is returned instead. -/
theorem shouldSell_stopLoss_priority (config : BotConfig) (trade : TradeRec)
    (analysis : AnalysisSnapshot) (currentPrice now : ℚ)
    (h : profitPercentOf trade currentPrice ≤ -5) :
    shouldSell config trade analysis currentPrice now =
      ⟨true, .stopLoss, profitPercentOf trade currentPrice⟩ := by
  simp only [shouldSell]
  rw [if_pos h]

/-- Witness for the amended stop-loss priority claim: a trade at -6
percent with a NEUTRAL low-confidence analysis is sold with the
loss-limit reason. -/
theorem shouldSell_stopLoss_priority_witness :
    profitPercentOf sampleTrade 94 ≤ -5 ∧
    shouldSell sampleConfig sampleTrade sampleAnalysis 94 0 =
      ⟨true, .stopLoss, profitPercentOf sampleTrade 94⟩ :=
  ⟨by norm_num [profitPercentOf, sampleTrade],
    shouldSell_stopLoss_priority sampleConfig sampleTrade sampleAnalysis 94 0
      (by norm_num [profitPercentOf, sampleTrade])⟩

/-- C10: for an open trade whose profit percentage lies strictly above -5
and at most -2, with a non-negative configured sell threshold, no sell
rule can fire — shouldSell always declines, whatever the signal, the
confidence, the RSI and the holding duration. -/
theorem shouldSell_lossBand_neverSells (config : BotConfig) (trade : TradeRec)
    (analysis : AnalysisSnapshot) (currentPrice now : ℚ)
    (h1 : -5 < profitPercentOf trade currentPrice)
    (h2 : profitPercentOf trade currentPrice ≤ -2)
    (h3 : 0 ≤ config.sellThreshold) :
    (shouldSell config trade analysis currentPrice now).sell = false := by
  simp only [shouldSell]
  split_ifs with hA hB hC hD hE hF
  · exfalso; linarith
  · exfalso; linarith
  · exfalso; linarith [hC.1]
  · exfalso; linarith [hD.1]
  · exfalso; linarith [hE.1]
  · exfalso; linarith [hF.2.1]
  · rfl

/-- Witness for the loss-band claim: a trade at -3 percent is not sold. -/
theorem shouldSell_lossBand_neverSells_witness :
    (-5 < profitPercentOf sampleTrade 97) ∧
    (profitPercentOf sampleTrade 97 ≤ -2) ∧
    (0 ≤ sampleConfig.sellThreshold) ∧
    (shouldSell sampleConfig sampleTrade sampleAnalysis 97 0).sell = false :=
  ⟨by norm_num [profitPercentOf, sampleTrade],
    by norm_num [profitPercentOf, sampleTrade],
    by norm_num [sampleConfig],
    shouldSell_lossBand_neverSells sampleConfig sampleTrade sampleAnalysis 97 0
      (by norm_num [profitPercentOf, sampleTrade])
      (by norm_num [profitPercentOf, sampleTrade])
      (by norm_num [sampleConfig])⟩

/-! ## Claim about the overall signal vote -/

/-- The weighted vote scores as the specification words them, computed
from the per-indicator signals and the RSI value: an RSI BUY counts 3
when the RSI is below 25 and 2 otherwise, an RSI SELL counts 3 when the
RSI is above 75 and 2 otherwise, MACD and SMA signals count 2 each. -/
def voteBuyScore (s : Signals) (rsiValue : ℚ) : Nat :=
  (if s.rsi = .BUY then (if rsiValue < 25 then 3 else 2) else 0) +
  (if s.macd = .BUY then 2 else 0) +
  (if s.sma = .BUY then 2 else 0)

def voteSellScore (s : Signals) (rsiValue : ℚ) : Nat :=
  (if s.rsi = .SELL then (if rsiValue > 75 then 3 else 2) else 0) +
  (if s.macd = .SELL then 2 else 0) +
  (if s.sma = .SELL then 2 else 0)

/-- C7: the overall signal of generateSignals is exactly the weighted
vote over the per-indicator signals: BUY iff buyScore > sellScore and
buyScore >= 3, SELL iff sellScore > buyScore and sellScore >= 3, and
NEUTRAL otherwise. -/
theorem generateSignals_overall_vote (price : ℚ) (ind : TechnicalIndicators)
    (flags : Option IndicatorFlags) :
    ((generateSignals price ind flags).overall = .BUY ↔
      voteSellScore (generateSignals price ind flags) ind.rsi <
        voteBuyScore (generateSignals price ind flags) ind.rsi ∧
      3 ≤ voteBuyScore (generateSignals price ind flags) ind.rsi) ∧
    ((generateSignals price ind flags).overall = .SELL ↔
      voteBuyScore (generateSignals price ind flags) ind.rsi <
        voteSellScore (generateSignals price ind flags) ind.rsi ∧
      3 ≤ voteSellScore (generateSignals price ind flags) ind.rsi) ∧
    ((generateSignals price ind flags).overall = .NEUTRAL ↔
      (¬(voteSellScore (generateSignals price ind flags) ind.rsi <
          voteBuyScore (generateSignals price ind flags) ind.rsi ∧
        3 ≤ voteBuyScore (generateSignals price ind flags) ind.rsi) ∧
       ¬(voteBuyScore (generateSignals price ind flags) ind.rsi <
          voteSellScore (generateSignals price ind flags) ind.rsi ∧
        3 ≤ voteSellScore (generateSignals price ind flags) ind.rsi))) := by
  have hov : (generateSignals price ind flags).overall =
      (if voteSellScore (generateSignals price ind flags) ind.rsi <
            voteBuyScore (generateSignals price ind flags) ind.rsi ∧
          3 ≤ voteBuyScore (generateSignals price ind flags) ind.rsi then
        Signal.BUY
      else if voteBuyScore (generateSignals price ind flags) ind.rsi <
            voteSellScore (generateSignals price ind flags) ind.rsi ∧
          3 ≤ voteSellScore (generateSignals price ind flags) ind.rsi then
        Signal.SELL
      else Signal.NEUTRAL) := rfl
  by_cases hb : voteSellScore (generateSignals price ind flags) ind.rsi <
      voteBuyScore (generateSignals price ind flags) ind.rsi ∧
      3 ≤ voteBuyScore (generateSignals price ind flags) ind.rsi
  · rw [hov, if_pos hb]
    have hns : ¬(voteBuyScore (generateSignals price ind flags) ind.rsi <
        voteSellScore (generateSignals price ind flags) ind.rsi ∧
        3 ≤ voteSellScore (generateSignals price ind flags) ind.rsi) := by
      intro hs
      exact absurd hb.1 (Nat.lt_asymm hs.1)
    simp [hb, hns]
  · rw [hov, if_neg hb]
    by_cases hs : voteBuyScore (generateSignals price ind flags) ind.rsi <
        voteSellScore (generateSignals price ind flags) ind.rsi ∧
        3 ≤ voteSellScore (generateSignals price ind flags) ind.rsi
    · rw [if_pos hs]
      simp [hb, hs]
    · rw [if_neg hs]
      simp [hb, hs]

/-! ## Claim about RSI bounds -/

lemma rsiValue_bounds (avgGain avgLoss : ℚ) (hg : 0 ≤ avgGain) (hl : 0 ≤ avgLoss) :
    0 ≤ (if avgLoss = 0 then (100 : ℚ) else 100 - 100 / (1 + avgGain / avgLoss)) ∧
    (if avgLoss = 0 then (100 : ℚ) else 100 - 100 / (1 + avgGain / avgLoss)) ≤ 100 := by
  split_ifs with h
  · norm_num
  · have hl2 : 0 < avgLoss := lt_of_le_of_ne hl (Ne.symm h)
    have hrs : 0 ≤ avgGain / avgLoss := div_nonneg hg hl2.le
    have hden : (0 : ℚ) < 1 + avgGain / avgLoss := by linarith
    constructor
    · have hle : 100 / (1 + avgGain / avgLoss) ≤ 100 :=
        div_le_self (by norm_num) (by linarith)
      linarith
    · have hpos : 0 < 100 / (1 + avgGain / avgLoss) := div_pos (by norm_num) hden
      linarith

lemma window_sum_nonneg (l : List ℚ) (h : ∀ x ∈ l, 0 ≤ x) (j n : Nat) :
    0 ≤ ((l.drop j).take n).sum :=
  List.sum_nonneg fun x hx =>
    h x (List.mem_of_mem_drop (List.mem_of_mem_take hx))

lemma window_sum_zero (l : List ℚ) (h : ∀ x ∈ l, x = 0) (j n : Nat) :
    ((l.drop j).take n).sum = 0 :=
  List.sum_eq_zero fun x hx =>
    h x (List.mem_of_mem_drop (List.mem_of_mem_take hx))

lemma chain'_lt_getD (P : List ℚ) (hc : List.Chain' (· < ·) P) (i : Nat)
    (h : i + 1 < P.length) : P.getD i 0 < P.getD (i + 1) 0 := by
  rw [List.getD_eq_getElem P 0 (by omega), List.getD_eq_getElem P 0 h]
  exact List.chain'_iff_get.1 hc i (by omega)

lemma rsiGains_nonneg (P : List ℚ) : ∀ x ∈ rsiGains P, 0 ≤ x := by
  intro x hx
  simp only [rsiGains, List.mem_map] at hx
  obtain ⟨c, _, rfl⟩ := hx
  split_ifs with hc
  · exact hc.le
  · exact le_refl 0

lemma rsiLosses_nonneg (P : List ℚ) : ∀ x ∈ rsiLosses P, 0 ≤ x := by
  intro x hx
  simp only [rsiLosses, List.mem_map] at hx
  obtain ⟨c, _, rfl⟩ := hx
  split_ifs with hc
  · exact abs_nonneg c
  · exact le_refl 0

lemma rsiLosses_zero_of_increasing (P : List ℚ) (hc : List.Chain' (· < ·) P) :
    ∀ x ∈ rsiLosses P, x = 0 := by
  intro x hx
  simp only [rsiLosses, rsiChanges, List.mem_map, List.mem_range] at hx
  obtain ⟨c, ⟨i, hi, rfl⟩, rfl⟩ := hx
  have hlt : P.getD i 0 < P.getD (i + 1) 0 := chain'_lt_getD P hc i (by omega)
  rw [if_neg (by linarith)]

/-- C6: for a price series of length at least period + 1 (period at least
one), calculateRSI returns a non-empty list of values all within [0, 100];
and for a strictly increasing price series every trailing-window average
loss is zero, so every returned value is exactly 100 (the avgLoss = 0
guard, never a division by zero). -/
theorem calculateRSI_bounds (P : List ℚ) (n : Nat) (h1 : 1 ≤ n)
    (h2 : n + 1 ≤ P.length) :
    (calculateRSI P n ≠ [] ∧ ∀ v ∈ calculateRSI P n, 0 ≤ v ∧ v ≤ 100) ∧
    (List.Chain' (· < ·) P → ∀ v ∈ calculateRSI P n, v = 100) := by
  have hglen : (rsiGains P).length = P.length - 1 := by
    simp [rsiGains, rsiChanges]
  constructor
  · constructor
    · have hlen : (calculateRSI P n).length = (rsiGains P).length + 1 - n := by
        simp [calculateRSI]
      intro hnil
      rw [hnil] at hlen
      simp only [List.length_nil] at hlen
      omega
    · intro v hv
      simp only [calculateRSI, List.mem_map, List.mem_range] at hv
      obtain ⟨j, hj, rfl⟩ := hv
      have hnc : (0 : ℚ) ≤ (n : ℚ) := by positivity
      exact rsiValue_bounds _ _
        (div_nonneg (window_sum_nonneg _ (rsiGains_nonneg P) j n) hnc)
        (div_nonneg (window_sum_nonneg _ (rsiLosses_nonneg P) j n) hnc)
  · intro hchain v hv
    simp only [calculateRSI, List.mem_map, List.mem_range] at hv
    obtain ⟨j, hj, rfl⟩ := hv
    rw [window_sum_zero _ (rsiLosses_zero_of_increasing P hchain) j n]
    rw [zero_div, if_pos rfl]

def increasingPrices : List ℚ :=
  [1, 2, 3, 4, 5, 6, 7, 8, 9, 10, 11, 12, 13, 14, 15, 16]

/-- Witness for the RSI bounds claim on a concrete strictly increasing
series of 16 prices with period 14. -/
theorem calculateRSI_bounds_witness :
    (1 ≤ 14 ∧ 14 + 1 ≤ increasingPrices.length ∧
      List.Chain' (· < ·) increasingPrices) ∧
    ((calculateRSI increasingPrices 14 ≠ [] ∧
      ∀ v ∈ calculateRSI increasingPrices 14, 0 ≤ v ∧ v ≤ 100) ∧
     (List.Chain' (· < ·) increasingPrices →
      ∀ v ∈ calculateRSI increasingPrices 14, v = 100)) :=
  ⟨⟨by norm_num, by norm_num [increasingPrices],
    by norm_num [increasingPrices, List.chain'_cons]⟩,
   calculateRSI_bounds increasingPrices 14 (by norm_num)
     (by norm_num [increasingPrices])⟩

/-! ## Claim about MACD alignment -/

lemma getD_map_range (f : Nat → ℚ) (n i : Nat) (h : i < n) :
    ((List.range n).map f).getD i 0 = f i := by
  rw [List.getD_eq_getElem _ _ (by simpa using h)]
  simp

/-- C5 (amended): for a price series at least as long as the slow period,
calculateMACD(P, 12, 26, 9) returns a macdLine of the length of the
shorter EMA series whose entries are the element-wise differences
EMA(P,12)[i] - EMA(P,26)[i] — the two EMA series are paired from their
heads, so the fast EMA's trailing (not leading) entries are dropped;
signalLine = EMA(macdLine, 9); and the histogram has the signalLine's
length with histogram[i] = macdLine[i + (macdLine.length -
signalLine.length)] - signalLine[i] at every index, with no off-by-one
misalignment. -/
theorem calculateMACD_alignment (P : List ℚ) (_h : 26 ≤ P.length) :
    (calculateMACD P 12 26 9).macdLine.length =
      min (calculateEMA P 12).length (calculateEMA P 26).length ∧
    (∀ i, i < (calculateMACD P 12 26 9).macdLine.length →
      (calculateMACD P 12 26 9).macdLine.getD i 0 =
        (calculateEMA P 12).getD i 0 - (calculateEMA P 26).getD i 0) ∧
    (calculateMACD P 12 26 9).signalLine =
      calculateEMA (calculateMACD P 12 26 9).macdLine 9 ∧
    (calculateMACD P 12 26 9).histogram.length =
      (calculateMACD P 12 26 9).signalLine.length ∧
    (∀ i, i < (calculateMACD P 12 26 9).signalLine.length →
      (calculateMACD P 12 26 9).histogram.getD i 0 =
        (calculateMACD P 12 26 9).macdLine.getD
          (i + ((calculateMACD P 12 26 9).macdLine.length -
                (calculateMACD P 12 26 9).signalLine.length)) 0 -
        (calculateMACD P 12 26 9).signalLine.getD i 0) := by
  refine ⟨?_, ?_, rfl, ?_, ?_⟩
  · simp [calculateMACD]
  · intro i hi
    have hlen : (calculateMACD P 12 26 9).macdLine.length =
        min (calculateEMA P 12).length (calculateEMA P 26).length := by
      simp [calculateMACD]
    rw [hlen] at hi
    simpa only [calculateMACD] using getD_map_range _ _ i hi
  · simp [calculateMACD]
  · intro i hi
    simpa only [calculateMACD] using getD_map_range _ _ i hi

def macdPrices : List ℚ :=
  [1, 2, 3, 4, 5, 6, 7, 8, 9, 10, 11, 12, 13, 14, 15, 16, 17, 18, 19, 20,
   21, 22, 23, 24, 25, 26]

/-- C5, counterexample to the tail-alignment reading: on the strictly
increasing 26-price series the macdLine computed by the source differs
from the spec-modelled tail-aligned difference macdLineTailAligned — the
source pairs the EMAs from their heads, giving EMA-seed minus EMA-seed,
while tail alignment would use the fast EMA's final value. -/
theorem calculateMACD_not_tailAligned :
    26 ≤ macdPrices.length ∧
    (calculateMACD macdPrices 12 26 9).macdLine.getD 0 0 ≠
      (macdLineTailAligned macdPrices 12 26).getD 0 0 := by
  refine ⟨by norm_num [macdPrices], ?_⟩
  norm_num [calculateMACD, macdLineTailAligned, macdPrices, calculateEMA,
    emaStep]

/-- Witness for the amended MACD alignment claim at the concrete
26-price series. -/
theorem calculateMACD_alignment_witness :
    26 ≤ macdPrices.length ∧
    ((calculateMACD macdPrices 12 26 9).macdLine.length =
      min (calculateEMA macdPrices 12).length (calculateEMA macdPrices 26).length ∧
    (∀ i, i < (calculateMACD macdPrices 12 26 9).macdLine.length →
      (calculateMACD macdPrices 12 26 9).macdLine.getD i 0 =
        (calculateEMA macdPrices 12).getD i 0 - (calculateEMA macdPrices 26).getD i 0) ∧
    (calculateMACD macdPrices 12 26 9).signalLine =
      calculateEMA (calculateMACD macdPrices 12 26 9).macdLine 9 ∧
    (calculateMACD macdPrices 12 26 9).histogram.length =
      (calculateMACD macdPrices 12 26 9).signalLine.length ∧
    (∀ i, i < (calculateMACD macdPrices 12 26 9).signalLine.length →
      (calculateMACD macdPrices 12 26 9).histogram.getD i 0 =
        (calculateMACD macdPrices 12 26 9).macdLine.getD
          (i + ((calculateMACD macdPrices 12 26 9).macdLine.length -
                (calculateMACD macdPrices 12 26 9).signalLine.length)) 0 -
        (calculateMACD macdPrices 12 26 9).signalLine.getD i 0)) :=
  ⟨by norm_num [macdPrices],
   calculateMACD_alignment macdPrices (by norm_num [macdPrices])⟩

/-! ## Claim about execution atomicity on order failure -/

/-- C4: when exchange order placement fails, executeBuy returns the error
(re-raised) having created no trade record and debited no capital, and
executeSell returns the error having left the trade records untouched (so
the open trade is not CLOSED) and credited neither capital nor profit; in
both cases exactly the begin log and the error log were written. -/
theorem execute_order_failure_atomic (w : WorldState) (benv : BuyEnv)
    (senv : SellEnv) (symbol : String) (price tradeAmount now : ℚ)
    (newId : Nat) (trade : TradeRec) (currentPrice : ℚ) (reason : SellReason)
    (hb : benv.placeOrder = .error ()) (hs : senv.placeOrder = .error ()) :
    (executeBuy w benv symbol price tradeAmount now newId =
      (.error (), addLogW (addLogW w)) ∧
      (addLogW (addLogW w)).trades = w.trades ∧
      (addLogW (addLogW w)).totalCapital = w.totalCapital ∧
      (addLogW (addLogW w)).totalProfit = w.totalProfit ∧
      (addLogW (addLogW w)).dailyLoss = w.dailyLoss ∧
      (addLogW (addLogW w)).logCount = w.logCount + 2) ∧
    (executeSell w senv trade currentPrice reason =
      (.error (), addLogW (addLogW w)) ∧
      (addLogW (addLogW w)).trades = w.trades ∧
      (addLogW (addLogW w)).totalCapital = w.totalCapital ∧
      (addLogW (addLogW w)).totalProfit = w.totalProfit ∧
      (addLogW (addLogW w)).dailyLoss = w.dailyLoss ∧
      (addLogW (addLogW w)).logCount = w.logCount + 2) := by
  constructor
  · refine ⟨?_, rfl, rfl, rfl, rfl, rfl⟩
    cases hcalc : benv.calcQuantity with
    | error e => simp [executeBuy, hcalc]
    | ok q => simp [executeBuy, hcalc, hb]
  · exact ⟨by simp [executeSell, hs], rfl, rfl, rfl, rfl, rfl⟩

def sampleWorld : WorldState :=
  ⟨[sampleTrade], 1000, 0, 0, 0⟩

def failingBuyEnv : BuyEnv :=
  ⟨.ok 1, .error ()⟩

def failingSellEnv : SellEnv :=
  ⟨.error ()⟩

/-- Witness for the execution atomicity claim on a concrete world with a
failing order placement. -/
theorem execute_order_failure_atomic_witness :
    failingBuyEnv.placeOrder = .error () ∧
    failingSellEnv.placeOrder = .error () ∧
    executeBuy sampleWorld failingBuyEnv "BTCUSDT" 100 50 0 2 =
      (.error (), addLogW (addLogW sampleWorld)) ∧
    executeSell sampleWorld failingSellEnv sampleTrade 104 .profitTarget =
      (.error (), addLogW (addLogW sampleWorld)) :=
  ⟨rfl, rfl,
    (execute_order_failure_atomic sampleWorld failingBuyEnv failingSellEnv
      "BTCUSDT" 100 50 0 2 sampleTrade 104 .profitTarget rfl rfl).1.1,
    (execute_order_failure_atomic sampleWorld failingBuyEnv failingSellEnv
      "BTCUSDT" 100 50 0 2 sampleTrade 104 .profitTarget rfl rfl).2.1⟩

/-! ## Claim about idempotent stop -/

def bumpLogs (s : TBState) (k : Nat) : TBState :=
  { s with db := { s.db with logCount := s.db.logCount + k } }

lemma stop_stopped (s : TBState) (env : StopEnv)
    (h1 : s.isRunning = false) (h2 : s.db.isRunning = false) :
    stop s env = (⟨true, false⟩, bumpLogs s 1) := by
  simp [stop, h1, h2, addLogB, bumpLogs]

lemma iterStop_stopped (n : Nat) (s : TBState) (env : StopEnv)
    (h1 : s.isRunning = false) (h2 : s.db.isRunning = false) :
    iterStop n s env = bumpLogs s n := by
  induction n generalizing s with
  | zero => simp [iterStop, bumpLogs]
  | succ n ih =>
    simp only [iterStop]
    rw [stop_stopped s env h1 h2]
    have ih2 := ih (bumpLogs s 1) h1 h2
    simp only at ih2
    rw [ih2]
    simp only [bumpLogs]
    congr 2
    omega

/-- C1: when the bot is stopped according to both the in-memory running
flag and the persisted run-status flag, stop() returns success with
wasRunning = false and changes nothing except appending to the log
stream; any number of repeated calls likewise only appends log entries,
every repeated call still answers wasRunning = false, and no
trading-cycle tick can fire at any point in the sequence. -/
theorem stop_idempotent_when_stopped (s : TBState) (env : StopEnv) (n : Nat)
    (h1 : s.isRunning = false) (h2 : s.db.isRunning = false) :
    (stop s env).1 = ⟨true, false⟩ ∧
    (stop s env).2 = bumpLogs s 1 ∧
    iterStop n s env = bumpLogs s n ∧
    (∀ k : Nat, (stop (iterStop k s env) env).1 = ⟨true, false⟩) ∧
    (∀ k : Nat, tradingTickFires (iterStop k s env) = false) := by
  have hstop := stop_stopped s env h1 h2
  refine ⟨by rw [hstop], by rw [hstop],
    iterStop_stopped n s env h1 h2, ?_, ?_⟩
  · intro k
    rw [iterStop_stopped k s env h1 h2, stop_stopped (bumpLogs s k) env h1 h2]
  · intro k
    rw [iterStop_stopped k s env h1 h2]
    simp [tradingTickFires, bumpLogs, h1]

def stoppedBot : TBState :=
  ⟨false, none, false, ⟨false, false, false⟩, ⟨false, 0⟩⟩

def sampleStopEnv : StopEnv :=
  ⟨true, true⟩

/-- Witness for the idempotent-stop claim at a concrete stopped state and
three repeated calls. -/
theorem stop_idempotent_when_stopped_witness :
    stoppedBot.isRunning = false ∧ stoppedBot.db.isRunning = false ∧
    ((stop stoppedBot sampleStopEnv).1 = ⟨true, false⟩ ∧
     (stop stoppedBot sampleStopEnv).2 = bumpLogs stoppedBot 1 ∧
     iterStop 3 stoppedBot sampleStopEnv = bumpLogs stoppedBot 3 ∧
     (∀ k : Nat, (stop (iterStop k stoppedBot sampleStopEnv) sampleStopEnv).1 =
        ⟨true, false⟩) ∧
     (∀ k : Nat, tradingTickFires (iterStop k stoppedBot sampleStopEnv) = false)) :=
  ⟨rfl, rfl, stop_idempotent_when_stopped stoppedBot sampleStopEnv 3 rfl rfl⟩

/-! ## Claim about start-failure cleanup -/

lemma forceStop_timers (s : TBState) (b : Bool) :
    (forceStop s b).isRunning = false ∧
    (forceStop s b).tradingInterval = false ∧
    (forceStop s b).analyzer.analysisInterval = false ∧
    (forceStop s b).analyzer.pairUpdateInterval = false := by
  cases b <;> simp [forceStop, stopAnalysis, addLogB]

lemma startAnalysis_error_state (s : TBState) (c : Option BotConfig)
    (e : Unit) (s2 : TBState)
    (ha1 : s.analyzer.analysisInterval = false)
    (ha2 : s.analyzer.pairUpdateInterval = false)
    (h : startAnalysis s c = (.error e, s2)) :
    s2.tradingInterval = s.tradingInterval ∧
    s2.analyzer.analysisInterval = false ∧
    s2.analyzer.pairUpdateInterval = false := by
  cases c with
  | some cfg =>
    simp [startAnalysis] at h
  | none =>
    simp only [startAnalysis] at h
    split at h
    · injection h with h1 h2
      subst h2
      simp [stopAnalysis, addLogB]
    · injection h with h1 h2
      subst h2
      simp [addLogB, ha1, ha2]

lemma startBody_error_timers (s : TBState) (cfg : BotConfig) (env : StartEnv)
    (e : StartErr) (s2 : TBState)
    (ht : s.tradingInterval = false)
    (ha1 : s.analyzer.analysisInterval = false)
    (ha2 : s.analyzer.pairUpdateInterval = false)
    (h : startBody s cfg env = (.error e, s2)) :
    s2.tradingInterval = false ∧
    s2.analyzer.analysisInterval = false ∧
    s2.analyzer.pairUpdateInterval = false := by
  simp only [startBody] at h
  split at h
  · injection h with h1 h2
    subst h2
    simp [addLogB, ht, ha1, ha2]
  · injection h with h1 h2
    subst h2
    simp [addLogB, ht, ha1, ha2]
  · split at h
    · injection h with h1 h2
      subst h2
      simp [addLogB, ht, ha1, ha2]
    · injection h with h1 h2
      subst h2
      simp [addLogB, ht, ha1, ha2]
    · split at h
      · injection h with h1 h2
        subst h2
        simp [addLogB, ht, ha1, ha2]
      · split at h
        · injection h with h1 h2
          subst h2
          simp [addLogB, ht, ha1, ha2]
        · split at h
          · injection h with h1 h2
            subst h2
            simp [addLogB, ht, ha1, ha2]
          · split at h
            · rename_i a s3 heq
              injection h with h1 h2
              subst h2
              have hstate := startAnalysis_error_state _ _ a s3
                (by simpa [addLogB] using ha1)
                (by simpa [addLogB] using ha2) heq
              refine ⟨?_, hstate.2.1, hstate.2.2⟩
              have := hstate.1
              simpa [addLogB, ht] using this
            · exact absurd h (by simp)

/-- C2: whenever start(config) surfaces a failure, the bot ends
NOT_RUNNING in memory with neither the trading-loop timer nor either
analyzer timer installed — assuming the reachability invariant that an
installed timer implies a set running flag (in-memory or persisted), in
which case start begins with forceStop.  In the code every step that can
actually throw runs before any timer is installed; the logging and
notification steps after the loops start swallow their own errors. -/
theorem start_failure_no_timers (s : TBState) (cfg : BotConfig)
    (env : StartEnv) (e : StartErr) (s2 : TBState)
    (hInv1 : s.tradingInterval = true → (s.isRunning || s.db.isRunning) = true)
    (hInv2 : s.analyzer.analysisInterval = true →
      (s.isRunning || s.db.isRunning) = true)
    (hInv3 : s.analyzer.pairUpdateInterval = true →
      (s.isRunning || s.db.isRunning) = true)
    (h : start s cfg env = (.error e, s2)) :
    s2.isRunning = false ∧ s2.tradingInterval = false ∧
    s2.analyzer.analysisInterval = false ∧
    s2.analyzer.pairUpdateInterval = false := by
  simp only [start] at h
  by_cases hrun : (s.isRunning || s.db.isRunning) = true
  · rw [if_pos hrun] at h
    obtain ⟨hf1, hf2, hf3, hf4⟩ := forceStop_timers s env.statusWriteOk
    split at h
    · exact absurd h (by simp)
    · rename_i e2 st heq
      injection h with h1 h2
      subst h2
      obtain ⟨k1, k2, k3⟩ :=
        startBody_error_timers _ cfg env e2 st hf2 hf3 hf4 heq
      exact ⟨by simp [addLogB], by simpa [addLogB] using k1,
        by simpa [addLogB] using k2, by simpa [addLogB] using k3⟩
  · have hor : (s.isRunning || s.db.isRunning) = false := by
      simpa using hrun
    have ht : s.tradingInterval = false := by
      cases hti : s.tradingInterval
      · rfl
      · exact absurd (hInv1 hti) (by simp [hor])
    have ha1 : s.analyzer.analysisInterval = false := by
      cases hti : s.analyzer.analysisInterval
      · rfl
      · exact absurd (hInv2 hti) (by simp [hor])
    have ha2 : s.analyzer.pairUpdateInterval = false := by
      cases hti : s.analyzer.pairUpdateInterval
      · rfl
      · exact absurd (hInv3 hti) (by simp [hor])
    rw [if_neg hrun] at h
    split at h
    · exact absurd h (by simp)
    · rename_i e2 st heq
      injection h with h1 h2
      subst h2
      obtain ⟨k1, k2, k3⟩ :=
        startBody_error_timers _ cfg env e2 st ht ha1 ha2 heq
      exact ⟨by simp [addLogB], by simpa [addLogB] using k1,
        by simpa [addLogB] using k2, by simpa [addLogB] using k3⟩

def failingStartEnv : StartEnv :=
  ⟨.ok true, .ok (some 100), false, true, some sampleConfig, true⟩

def startFailState : TBState :=
  ⟨false, some sampleConfig, false, ⟨false, false, false⟩, ⟨false, 3⟩⟩

/-- Witness for the start-failure claim: from a cleanly stopped state,
a start whose configuration persist fails surfaces the error and leaves a
NOT_RUNNING state with no timers. -/
theorem start_failure_no_timers_witness :
    start stoppedBot sampleConfig failingStartEnv =
      (.error .persistConfig, startFailState) ∧
    (startFailState.isRunning = false ∧
     startFailState.tradingInterval = false ∧
     startFailState.analyzer.analysisInterval = false ∧
     startFailState.analyzer.pairUpdateInterval = false) :=
  ⟨by norm_num [start, startBody, addLogB, stoppedBot, sampleConfig,
      failingStartEnv, startFailState],
   start_failure_no_timers stoppedBot sampleConfig failingStartEnv
     .persistConfig startFailState
     (by simp [stoppedBot]) (by simp [stoppedBot]) (by simp [stoppedBot])
     (by norm_num [start, startBody, addLogB, stoppedBot, sampleConfig,
        failingStartEnv, startFailState])⟩

/-! ## Claims about the selection cache and the hard filter gate -/

/-- C8 (amended): after a selection pass at time t0 produced a non-empty
list sel, any call within the refresh interval returns sel — the cached
list from the first call — without running the selection pass and without
touching the state, whatever the new environment; and any call whose last
update is at least the interval old runs the full selection pass again.
When the completed pass cached an empty list, the non-emptiness
hypothesis fails, and the next call recomputes (see the counterexample). -/
theorem selection_cache_respected (crit : SelectionCriteria)
    (st : SelectorState) (t0 : Nat) (env : SelectorEnv) (sel : List String)
    (st1 : SelectorState) (t1 : Nat) (env2 : SelectorEnv)
    (h1 : selectBestTradingPairs crit st t0 env = (sel, st1, true))
    (h2 : sel ≠ [])
    (h3 : t1 - st1.lastUpdate < st1.updateInterval) :
    selectBestTradingPairs crit st1 t1 env2 = (sel, st1, false) ∧
    (∀ st3 t3 env3, st3.updateInterval ≤ t3 - st3.lastUpdate →
      (selectBestTradingPairs crit st3 t3 env3).2.2 = true) := by
  constructor
  · have hsel : st1.lastSelection = sel := by
      simp only [selectBestTradingPairs] at h1
      split at h1
      · simp at h1
      · split at h1
        · simp at h1
          exact absurd h1.1 h2
        · split at h1
          · simp at h1
            exact absurd h1.1 h2
          · simp only [Prod.mk.injEq] at h1
            obtain ⟨ha, hb, -⟩ := h1
            rw [← hb, ha]
    simp only [selectBestTradingPairs]
    rw [if_pos ⟨h3, by rw [hsel]; exact List.length_pos.2 h2⟩, hsel]
  · intro st3 t3 env3 hge
    simp only [selectBestTradingPairs]
    rw [if_neg (by intro hc; omega)]
    cases henv3 : env3.tickers with
    | none => simp
    | some l =>
      by_cases hl : l.length = 0
      · simp [hl]
      · simp [hl]

lemma passesFilters_eq_false (crit : SelectionCriteria) (a : PairAnalysis)
    (h : a.volume < crit.minVolume ∨ a.liquidity < crit.minLiquidity ∨
      crit.maxVolatility < a.volatility) :
    passesFilters crit a = false := by
  rcases h with h | h | h
  · have hn : ¬(crit.minVolume ≤ a.volume) := not_le.2 h
    simp [passesFilters, hn]
  · have hn : ¬(crit.minLiquidity ≤ a.liquidity) := not_le.2 h
    simp [passesFilters, hn]
  · have hn : ¬(a.volatility ≤ crit.maxVolatility) := not_le.2 h
    simp [passesFilters, hn]

/-- C9: during a selection pass (a call that misses the cache), any
ticker whose analysis fails the configured minimum volume, or the
configured minimum liquidity, or the configured maximum volatility, is
excluded from the returned ranked list no matter how high its score — the
post-scoring filter is a hard gate applied before sorting and taking the
top N. -/
theorem selection_hard_gate (crit : SelectionCriteria) (st : SelectorState)
    (now : Nat) (env : SelectorEnv) (sym : String) (tl : List Ticker)
    (henv : env.tickers = some tl)
    (hmiss : ¬(now - st.lastUpdate < st.updateInterval ∧
      0 < st.lastSelection.length))
    (hfail : ∀ t ∈ tl, t.symbol = sym →
      (analyzePair env.klines t).volume < crit.minVolume ∨
      (analyzePair env.klines t).liquidity < crit.minLiquidity ∨
      crit.maxVolatility < (analyzePair env.klines t).volatility) :
    sym ∉ (selectBestTradingPairs crit st now env).1 := by
  simp only [selectBestTradingPairs, henv]
  rw [if_neg hmiss]
  by_cases hlen : tl.length = 0
  · rw [if_pos hlen]
    simp
  · rw [if_neg hlen]
    intro hmem
    simp only [List.mem_map] at hmem
    obtain ⟨p, hp, hpsym⟩ := hmem
    have hp2 := List.mem_mergeSort.1 (List.mem_of_mem_take hp)
    obtain ⟨hp3, hpass⟩ := List.mem_filter.1 hp2
    obtain ⟨t, ht, rfl⟩ := List.mem_map.1 hp3
    have ht2 : t ∈ tl := List.mem_of_mem_filter ht
    have hsym : t.symbol = sym := hpsym
    have hff := passesFilters_eq_false crit (analyzePair env.klines t)
      (hfail t ht2 hsym)
    rw [hff] at hpass
    cases hpass

def emptyKlines : String → Option (List ℚ) :=
  fun _ => none

/-- A ticker that survives the pre-filter and passes every post-scoring
gate. -/
def goodTicker : Ticker :=
  ⟨"BTCUSDT", 100, 3, 2000, 1000000, 100, 100⟩

/-- A ticker rejected by the pre-filter (raw base volume at most 1000),
so a pass over it selects nothing. -/
def badTicker : Ticker :=
  ⟨"AAAUSDT", 100, 3, 500, 100, 100, 100⟩

/-- A ticker that survives the pre-filter but whose quote volume is far
below the configured minimum. -/
def lowVolTicker : Ticker :=
  ⟨"AAAUSDT", 100, 3, 2000, 100, 100, 100⟩

def envGood : SelectorEnv :=
  ⟨some [goodTicker], emptyKlines⟩

def envBad : SelectorEnv :=
  ⟨some [badTicker], emptyKlines⟩

def envLowVol : SelectorEnv :=
  ⟨some [lowVolTicker], emptyKlines⟩

def freshSelector : SelectorState :=
  ⟨[], 0, 300000⟩

def cachedSelector : SelectorState :=
  ⟨["BTCUSDT"], 600000, 300000⟩

lemma goodTicker_passes_pre :
    tickerPreFilter defaultCriteria goodTicker = true := by
  have e1 : jsEndsWith "BTCUSDT" "USDT" = true := by decide
  have e2 : defaultCriteria.excludeSymbols.contains "BTCUSDT" = false := by
    decide
  have e3 : jsIncludes "BTCUSDT" "UP" = false := by decide
  have e4 : jsIncludes "BTCUSDT" "DOWN" = false := by decide
  have e5 : jsIncludes "BTCUSDT" "BULL" = false := by decide
  have e6 : jsIncludes "BTCUSDT" "BEAR" = false := by decide
  have e7 : jsIncludes "BTCUSDT" "3L" = false := by decide
  have e8 : jsIncludes "BTCUSDT" "3S" = false := by decide
  have e9 : jsIncludes "BTCUSDT" "5L" = false := by decide
  have e10 : jsIncludes "BTCUSDT" "5S" = false := by decide
  have e11 : jsStartsWith "BTCUSDT" "AUD" = false := by decide
  have e12 : jsStartsWith "BTCUSDT" "EUR" = false := by decide
  have e13 : jsStartsWith "BTCUSDT" "GBP" = false := by decide
  have e14 : ("BTCUSDT".data.length ≤ 12) := by decide
  simp only [tickerPreFilter, goodTicker, e1, e2, e3, e4, e5, e6, e7, e8,
    e9, e10, e11, e12, e13]
  norm_num

lemma analyzePair_goodTicker_passes :
    passesFilters defaultCriteria (analyzePair emptyKlines goodTicker) = true := by
  norm_num [passesFilters, analyzePair, goodTicker, emptyKlines,
    defaultCriteria, performQuickTechnicalAnalysis]

lemma selection_core_good (st : SelectorState) (now : Nat)
    (hmiss : ¬(now - st.lastUpdate < st.updateInterval ∧
      0 < st.lastSelection.length)) :
    selectBestTradingPairs defaultCriteria st now envGood =
      (["BTCUSDT"],
        { st with lastSelection := ["BTCUSDT"], lastUpdate := now }, true) := by
  simp only [selectBestTradingPairs, envGood]
  rw [if_neg hmiss, if_neg (by simp)]
  rw [show List.filter (tickerPreFilter defaultCriteria) [goodTicker] =
      [goodTicker] by simp [List.filter_cons, goodTicker_passes_pre]]
  simp only [List.map_cons, List.map_nil]
  rw [show List.filter (passesFilters defaultCriteria)
      [analyzePair emptyKlines goodTicker] =
      [analyzePair emptyKlines goodTicker] by
    simp [List.filter_cons, analyzePair_goodTicker_passes]]
  simp only [List.mergeSort_singleton]
  rw [show List.take defaultCriteria.topPairsCount
      [analyzePair emptyKlines goodTicker] =
      [analyzePair emptyKlines goodTicker] from
    List.take_of_length_le (by simp [defaultCriteria])]
  simp only [List.map_cons, List.map_nil]
  rfl

lemma firstSelection_eq :
    selectBestTradingPairs defaultCriteria freshSelector 600000 envGood =
      (["BTCUSDT"], cachedSelector, true) := by
  rw [selection_core_good freshSelector 600000 (by simp [freshSelector])]
  rfl

/-- Witness for the amended cache claim: the pass at t = 600000 selects
the single qualifying instrument; the call at t = 700000 — inside the
5-minute window — returns the cached list without recomputation and
leaves the state untouched, and any state whose update is at least the
interval old recomputes. -/
theorem selection_cache_respected_witness :
    selectBestTradingPairs defaultCriteria freshSelector 600000 envGood =
      (["BTCUSDT"], cachedSelector, true) ∧
    (["BTCUSDT"] : List String) ≠ [] ∧
    700000 - cachedSelector.lastUpdate < cachedSelector.updateInterval ∧
    (selectBestTradingPairs defaultCriteria cachedSelector 700000 envGood =
      (["BTCUSDT"], cachedSelector, false) ∧
     (∀ st3 t3 env3, st3.updateInterval ≤ t3 - st3.lastUpdate →
       (selectBestTradingPairs defaultCriteria st3 t3 env3).2.2 = true)) :=
  ⟨firstSelection_eq, by simp, by norm_num [cachedSelector],
   selection_cache_respected defaultCriteria freshSelector 600000 envGood
     ["BTCUSDT"] cachedSelector 700000 envGood firstSelection_eq
     (by simp) (by norm_num [cachedSelector])⟩

/-- C8, counterexample to the claim as stated: at t = 1000000 a full
selection pass finds nothing (the only ticker fails the filters) and
caches an empty list with a fresh timestamp; one second later — far
inside the 5-minute refresh interval — the next call runs the full
selection pass again instead of returning the cached list, and returns a
different (non-empty) list. -/
theorem selection_cache_counterexample :
    (selectBestTradingPairs defaultCriteria freshSelector 1000000 envBad).1 = [] ∧
    (selectBestTradingPairs defaultCriteria freshSelector 1000000
      envBad).2.1.lastUpdate = 1000000 ∧
    (selectBestTradingPairs defaultCriteria freshSelector 1000000
      envBad).2.2 = true ∧
    1001000 - (selectBestTradingPairs defaultCriteria freshSelector 1000000
      envBad).2.1.lastUpdate <
      (selectBestTradingPairs defaultCriteria freshSelector 1000000
        envBad).2.1.updateInterval ∧
    (selectBestTradingPairs defaultCriteria
      (selectBestTradingPairs defaultCriteria freshSelector 1000000 envBad).2.1
      1001000 envGood).2.2 = true ∧
    (selectBestTradingPairs defaultCriteria
      (selectBestTradingPairs defaultCriteria freshSelector 1000000 envBad).2.1
      1001000 envGood).1 = ["BTCUSDT"] := by
  have hbadpre : tickerPreFilter defaultCriteria badTicker = false := by
    simp only [tickerPreFilter, badTicker]
    norm_num
  have hbad : selectBestTradingPairs defaultCriteria freshSelector 1000000
      envBad = ([], ⟨[], 1000000, 300000⟩, true) := by
    simp only [selectBestTradingPairs, envBad]
    rw [if_neg (by simp [freshSelector])]
    rw [if_neg (by simp)]
    simp [List.filter_cons, hbadpre, freshSelector]
  rw [hbad]
  have hsecond : selectBestTradingPairs defaultCriteria
      ⟨[], 1000000, 300000⟩ 1001000 envGood =
      (["BTCUSDT"], ⟨["BTCUSDT"], 1001000, 300000⟩, true) := by
    rw [selection_core_good ⟨[], 1000000, 300000⟩ 1001000 (by simp)]
  rw [hsecond]
  norm_num

/-- Witness for the hard-gate claim: the only ticker carries a quote
volume of 100 against a configured minimum of 500000, and its symbol is
absent from the pass result. -/
theorem selection_hard_gate_witness :
    envLowVol.tickers = some [lowVolTicker] ∧
    ¬((600000 : Nat) - freshSelector.lastUpdate < freshSelector.updateInterval ∧
      0 < freshSelector.lastSelection.length) ∧
    (∀ t ∈ [lowVolTicker], t.symbol = "AAAUSDT" →
      (analyzePair envLowVol.klines t).volume < defaultCriteria.minVolume ∨
      (analyzePair envLowVol.klines t).liquidity < defaultCriteria.minLiquidity ∨
      defaultCriteria.maxVolatility < (analyzePair envLowVol.klines t).volatility) ∧
    "AAAUSDT" ∉ (selectBestTradingPairs defaultCriteria freshSelector 600000
      envLowVol).1 :=
  ⟨rfl, by simp [freshSelector], by
    intro t ht hsym
    simp only [List.mem_singleton] at ht
    subst ht
    left
    norm_num [analyzePair, envLowVol, emptyKlines, lowVolTicker,
      defaultCriteria],
   selection_hard_gate defaultCriteria freshSelector 600000 envLowVol
     "AAAUSDT" [lowVolTicker] rfl (by simp [freshSelector]) (by
      intro t ht hsym
      simp only [List.mem_singleton] at ht
      subst ht
      left
      norm_num [analyzePair, envLowVol, emptyKlines, lowVolTicker,
        defaultCriteria])⟩

end CryptoBot
